import Mathlib

/-!
Verification of the currency-converter session logic in
`src/JS API/app-script.js`.

The script keeps four module-level state variables (`isFetching`,
`conversionRate`, `sourceCurrentValue`, `targetCurrentValue`) together with
the DOM fields it reads and writes (`inputSourceCurrency.value`,
`selectSourceCurrency.value`, `selectTargetCurrency.value`,
`exchangeRateText.textContent`).  We embed that state as `AppState` and each
event handler as a state-transition function.

Number model: JavaScript numbers are embedded as `ℚ`.  Places where a
non-finite value (`NaN`, `Infinity`, `undefined`) can flow are embedded as
`Option ℚ`, with `none` standing for any non-finite value; arithmetic
propagates `none` the way JS propagates non-finite values
(`x * NaN = NaN`, `1 / 0 = Infinity`, `data.conversion_rate` absent gives
`undefined`).  The text field `inputSourceCurrency` is a number-typed input,
so its `.value` is either blank or a numeric string; it is embedded as
`Option ℚ` with `none` for blank.  `targetCurrentValue` holds the string
produced by `.toFixed(2)` (initially the number 0); it is embedded by the
numeric value that string denotes, `none` for a non-numeric string such as
"NaN".  Flag-image updates (`changeFlag`, the image swap in the swap
handler) are pure asset plumbing with no effect on session state and are not
modelled.  A `fetchCount` field counts issued network fetches so that
"performs no network call" claims are statable.
-/

/-- `x.toFixed(2)` on a finite value: round to 2 decimal places.  ECMA-262
`Number.prototype.toFixed` picks the integer `n` minimising `|n / 10^2 - x|`
and on a tie picks the larger `n`, i.e. rounding half toward `+∞`. -/
def toFixed2 (q : ℚ) : ℚ :=
  (⌊q * 100 + 1 / 2⌋ : ℤ) / 100

/-- Multiplication of a finite JS number by a possibly non-finite one:
any non-finite operand yields a non-finite result. -/
def jsMul (s : ℚ) : Option ℚ → Option ℚ
  | some r => some (s * r)
  | none => none

/-- `.toFixed(2)` lifted to the non-finite marker: `NaN.toFixed(2)` and
`Infinity.toFixed(2)` are the non-numeric strings "NaN" / "Infinity". -/
def toFixed2Opt : Option ℚ → Option ℚ
  | some q => some (toFixed2 q)
  | none => none

/-- `1 / conversionRate` as in the swap handler: `1 / 0` is `Infinity`
(non-finite, `none` here); a non-finite rate stays non-finite. -/
def jsInv : Option ℚ → Option ℚ
  | some q => if q = 0 then none else some (1 / q)
  | none => none

/-- `parseFloat(inputSourceCurrency.value) || 0`: a blank (or otherwise
unparseable) field parses to `NaN`, which `|| 0` coerces to `0`; a parsed
`0` is falsy and also yields `0`, so the result is the parsed value with
`none` defaulted to `0`. -/
def parseInput : Option ℚ → ℚ
  | some q => q
  | none => 0

/-- The coercing comparison `inputSourceCurrency.value > 0`: a blank string
coerces to `0` (`"" > 0` is false) and a numeric string to its value. -/
def jsGtZero : Option ℚ → Bool
  | some q => decide (0 < q)
  | none => false

/-- The coercing comparison `inputSourceCurrency.value <= 0` used by
`handleConvert` validation: blank coerces to `0`, so `"" <= 0` is true. -/
def jsLeZero : Option ℚ → Bool
  | some q => decide (q ≤ 0)
  | none => true

/-- The module state of `app-script.js` plus the DOM fields the handlers
read and write. -/
structure AppState where
  /-- `selectSourceCurrency.value` -/
  selectSource : String
  /-- `selectTargetCurrency.value` -/
  selectTarget : String
  /-- `inputSourceCurrency.value` (blank embedded as `none`) -/
  inputValue : Option ℚ
  /-- `isFetching`: set true after a fetch response is stored -/
  isFetching : Bool
  /-- `conversionRate` (`none` for a non-finite value such as `undefined`) -/
  conversionRate : Option ℚ
  /-- `sourceCurrentValue` -/
  sourceCurrentValue : ℚ
  /-- `targetCurrentValue` (the value of the `.toFixed(2)` string) -/
  targetCurrentValue : Option ℚ
  /-- `exchangeRateText.textContent` -/
  displayText : String
  /-- number of network fetches issued so far (for no-fetch claims) -/
  fetchCount : ℕ
deriving DecidableEq, Repr

/-- Digits of the integer part in reverse order, regrouped with a comma
before every fourth, seventh, ... digit (thousands grouping). -/
def groupRev : List Char → ℕ → List Char
  | [], _ => []
  | c :: cs, k =>
    (if 0 < k ∧ k % 3 = 0 then [','] else []) ++ c :: groupRev cs (k + 1)

/-- A natural number rendered with `en-US` thousands separators. -/
def fmtNatGrouped (n : ℕ) : String :=
  ⟨(groupRev (toString n).toList.reverse 0).reverse⟩

/-- Strip trailing zero characters. -/
def dropTrailingZeros (s : String) : String :=
  ⟨(s.toList.reverse.dropWhile (· = '0')).reverse⟩

/-- The fractional part (`f < 1000`, thousandths) rendered as up to three
digits with trailing zeros removed, per the `Intl.NumberFormat` defaults
`minimumFractionDigits = 0`, `maximumFractionDigits = 3`. -/
def fracDigits (f : ℕ) : String :=
  let s := toString f
  dropTrailingZeros (⟨List.replicate (3 - s.length) '0'⟩ ++ s)

/-- `formatCurrency(number)`, i.e. `new Intl.NumberFormat().format(number)`
under the `en-US` default locale: round to at most three fraction digits
(rounding mode `halfExpand`, half away from zero), drop trailing fraction
zeros, and group the integer digits in threes with commas. -/
def formatCurrency (q : ℚ) : String :=
  let m : ℤ := if 0 ≤ q then ⌊q * 1000 + 1 / 2⌋ else -⌊(-q) * 1000 + 1 / 2⌋
  let a : ℕ := m.natAbs
  let fstr := fracDigits (a % 1000)
  (if m < 0 then "-" else "")
    ++ fmtNatGrouped (a / 1000)
    ++ (if fstr = "" then "" else "." ++ fstr)

/-- `formatCurrency` applied to a possibly non-numeric argument:
`Intl.NumberFormat().format(NaN)` renders "NaN". -/
def formatCurrencyOpt : Option ℚ → String
  | some q => formatCurrency q
  | none => "NaN"

/-- `updateExchangeRate()`: parse the input field (blank coerced to 0),
store it in `sourceCurrentValue`, set `targetCurrentValue` to
`(sourceCurrentValue * conversionRate).toFixed(2)`, and write the formatted
conversion line into `exchangeRateText`. -/
def updateExchangeRate (st : AppState) : AppState :=
  let s := parseInput st.inputValue
  let t := toFixed2Opt (jsMul s st.conversionRate)
  { st with
    sourceCurrentValue := s
    targetCurrentValue := t
    displayText :=
      formatCurrency s ++ " " ++ st.selectSource ++ " \n    = "
        ++ formatCurrencyOpt t ++ " " ++ st.selectTarget }

/-- The `buttonSwap` click handler: exchange the two selected currency
codes, copy `targetCurrentValue` into the input field, invert
`conversionRate` when `isFetching` is set, then run `updateExchangeRate`.
No fetch is issued and `isFetching` is not written. -/
def swap (st : AppState) : AppState :=
  updateExchangeRate
    { st with
      selectSource := st.selectTarget
      selectTarget := st.selectSource
      inputValue := st.targetCurrentValue
      conversionRate :=
        if st.isFetching then jsInv st.conversionRate else st.conversionRate }

/-- The `inputSourceCurrency` input handler with the field now holding `v`:
when `isFetching && value > 0` run `updateExchangeRate`; then, when
`isFetching`, run it again (the inner blank check `value === ""` assigns
the field to itself and has no effect). -/
def inputChanged (st : AppState) (v : Option ℚ) : AppState :=
  let st1 := { st with inputValue := v }
  let st2 :=
    if st1.isFetching && jsGtZero v then updateExchangeRate st1 else st1
  if st2.isFetching then updateExchangeRate st2 else st2

/-- Which select element fired the change event. -/
inductive Role where
  | source
  | target
deriving DecidableEq, Repr

/-- The select-element change handler, firing after the DOM already set the
element's value to `code`: reset the input field to 0, clear `isFetching`,
run `updateExchangeRate` (then `changeFlag`, pure asset plumbing, not
modelled). -/
def selectChanged (st : AppState) (role : Role) (code : String) : AppState :=
  let st1 :=
    match role with
    | Role.source => { st with selectSource := code }
    | Role.target => { st with selectTarget := code }
  updateExchangeRate { st1 with inputValue := some 0, isFetching := false }

/-- What `handleConvert` did before (or instead of) suspending on `fetch`. -/
inductive StartResult where
  /-- validation failed (`value <= 0`): alert, return, nothing touched -/
  | invalidAmount
  /-- `navigator.onLine` false: alert and offline message, no fetch -/
  | offlineErr
  /-- a fetch was issued for this (source, target) pair -/
  | issued (pair : String × String)
deriving DecidableEq, Repr

/-- The synchronous prefix of `handleConvert()` up to the `fetch` call:
validate `inputSourceCurrency.value <= 0`, check `navigator.onLine`, write
the loading message, capture the selected pair and issue the fetch.
Returns the state at the suspension point and what happened. -/
def convertStart (st : AppState) (online : Bool) : AppState × StartResult :=
  if jsLeZero st.inputValue then
    (st, StartResult.invalidAmount)
  else if !online then
    ({ st with displayText := "No internet connection!" },
      StartResult.offlineErr)
  else
    ({ st with
        displayText := "Fetching exchange rate, please wait..."
        fetchCount := st.fetchCount + 1 },
      StartResult.issued (st.selectSource, st.selectTarget))

/-- How the awaited `fetch`/`response.json()` pair resolved. -/
inductive FetchResult where
  /-- the fetch rejected or the body was not JSON: control reaches `catch` -/
  | threw
  /-- JSON parsed; the payload carries `data.conversion_rate`
  (`none` when the field is absent, i.e. `undefined`) -/
  | payload (rate : Option ℚ)
deriving DecidableEq, Repr

/-- The continuation of `handleConvert()` after the awaited fetch resolves,
applied to the session state current AT THAT TIME (the `catch`/success code
reads the module variables and current DOM, not values captured at issue
time).  On success: store `data.conversion_rate`, set `isFetching = true`,
run `updateExchangeRate`.  On `catch`: write an error message chosen by a
fresh `navigator.onLine` read; nothing else is touched. -/
def convertResolve (st : AppState) (onlineAtCatch : Bool)
    (res : FetchResult) : AppState :=
  match res with
  | FetchResult.threw =>
    { st with
      displayText :=
        if !onlineAtCatch then "No internet connection!"
        else "Error fetching exchange rate!" }
  | FetchResult.payload r =>
    updateExchangeRate { st with conversionRate := r, isFetching := true }

/-- A whole `handleConvert()` run with no other event interleaved between
issuing the fetch and its resolution. -/
def handleConvert (st : AppState) (online onlineAtCatch : Bool)
    (res : FetchResult) : AppState :=
  match convertStart st online with
  | (st1, StartResult.issued _) => convertResolve st1 onlineAtCatch res
  | (st1, _) => st1

/-- The state at page load: the dropdown initialisation selects USD and
PHP, the module variables start at `false` / `0` / `0` / `0`, the input
field is blank and no fetch has been issued. -/
def initState : AppState :=
  { selectSource := "USD"
    selectTarget := "PHP"
    inputValue := none
    isFetching := false
    conversionRate := some 0
    sourceCurrentValue := 0
    targetCurrentValue := some 0
    displayText := ""
    fetchCount := 0 }

/-! Helper lemmas shared by several claims. -/

/-- A value passing the `> 0` coercing check also fails the `<= 0` one. -/
theorem jsLeZero_eq_false_of_jsGtZero (v : Option ℚ)
    (h : jsGtZero v = true) : jsLeZero v = false := by
  cases v with
  | none => simp [jsGtZero] at h
  | some q =>
    simp only [jsGtZero, decide_eq_true_eq] at h
    simp only [jsLeZero, decide_eq_false_iff_not, not_le]
    exact h

/-- `updateExchangeRate` never touches the selections, the input field, the
rate, the fetched flag or the fetch count. -/
theorem updateExchangeRate_frame (st : AppState) :
    (updateExchangeRate st).selectSource = st.selectSource ∧
    (updateExchangeRate st).selectTarget = st.selectTarget ∧
    (updateExchangeRate st).inputValue = st.inputValue ∧
    (updateExchangeRate st).isFetching = st.isFetching ∧
    (updateExchangeRate st).conversionRate = st.conversionRate ∧
    (updateExchangeRate st).fetchCount = st.fetchCount := by
  simp [updateExchangeRate]

/-- Claim C1: whenever the input field holds `a ≥ 0` and a valid rate
`r > 0` is held, `updateExchangeRate` stores `a` in `sourceCurrentValue`
and sets `targetCurrentValue` (the output amount) to `a * r` rounded to
two decimal places. -/
theorem c1_updateExchangeRate_rounds (st : AppState) (a r : ℚ)
    (hin : st.inputValue = some a) (ha : 0 ≤ a)
    (hr : st.conversionRate = some r) (hrpos : 0 < r)
    (hv : st.isFetching = true) :
    (updateExchangeRate st).sourceCurrentValue = a ∧
    (updateExchangeRate st).targetCurrentValue = some (toFixed2 (a * r)) := by
  simp [updateExchangeRate, hin, hr, parseInput, jsMul, toFixed2Opt]

/-- Witness for C1 at the end-to-end example: input 100, rate 56,
output `round2 (100 * 56) = 5600`. -/
theorem c1_updateExchangeRate_rounds_witness :
    (updateExchangeRate
        { initState with
          inputValue := some 100
          conversionRate := some 56
          isFetching := true }).sourceCurrentValue = 100 ∧
    (updateExchangeRate
        { initState with
          inputValue := some 100
          conversionRate := some 56
          isFetching := true }).targetCurrentValue
      = some (toFixed2 (100 * 56)) :=
  c1_updateExchangeRate_rounds _ 100 56 rfl (by norm_num) rfl (by norm_num)
    rfl

/-- Claim C2: when the rate is valid (`isFetching = true`) with value
`R > 0`, the swap handler exchanges the selected source and target
currencies, replaces the rate by `1 / R`, leaves `isFetching` set, and
issues no network fetch. -/
theorem c2_swap_inverts_rate (st : AppState) (R : ℚ)
    (hv : st.isFetching = true) (hr : st.conversionRate = some R)
    (hR : 0 < R) :
    (swap st).selectSource = st.selectTarget ∧
    (swap st).selectTarget = st.selectSource ∧
    (swap st).conversionRate = some (1 / R) ∧
    (swap st).isFetching = true ∧
    (swap st).fetchCount = st.fetchCount := by
  have hR' : R ≠ 0 := hR.ne'
  simp [swap, updateExchangeRate, hv, hr, jsInv, hR']

/-- Witness for C2 at the end-to-end example: USD to PHP at rate 56. -/
theorem c2_swap_inverts_rate_witness :
    (swap
        { initState with
          conversionRate := some 56
          isFetching := true }).selectSource = "PHP" ∧
    (swap
        { initState with
          conversionRate := some 56
          isFetching := true }).selectTarget = "USD" ∧
    (swap
        { initState with
          conversionRate := some 56
          isFetching := true }).conversionRate = some (1 / 56) ∧
    (swap
        { initState with
          conversionRate := some 56
          isFetching := true }).isFetching = true ∧
    (swap
        { initState with
          conversionRate := some 56
          isFetching := true }).fetchCount = 0 :=
  c2_swap_inverts_rate _ 56 rfl rfl (by norm_num)

/-- Claim C3 is false on the code: `formatCurrency` is
`new Intl.NumberFormat().format(...)` with default options
(`minimumFractionDigits = 0`), so an integral converted amount is rendered
without decimals.  Running the end-to-end example (default USD/PHP session,
input 100, successful response with rate 56) displays the output amount as
"5,600", not "5,600.00". -/
theorem c3_formatCurrency_counterexample :
    formatCurrencyOpt
        (handleConvert (inputChanged initState (some 100)) true true
          (FetchResult.payload (some 56))).targetCurrentValue = "5,600" ∧
    formatCurrencyOpt
        (handleConvert (inputChanged initState (some 100)) true true
          (FetchResult.payload (some 56))).targetCurrentValue
      ≠ "5,600.00" := by
  have h : (handleConvert (inputChanged initState (some 100)) true true
      (FetchResult.payload (some 56))).targetCurrentValue = some 5600 := by
    norm_num [handleConvert, inputChanged, convertStart, convertResolve,
      updateExchangeRate, initState, jsLeZero, jsGtZero, parseInput, jsMul,
      toFixed2Opt, toFixed2, Rat.floor_def]
  have hf : formatCurrencyOpt (some (5600 : ℚ)) = "5,600" := by
    simp only [formatCurrencyOpt]
    unfold formatCurrency
    norm_num [Rat.floor_def]
    decide
  rw [h, hf]
  exact ⟨rfl, by decide⟩

/-- Claim C3 (amended): `formatCurrency` renders numbers with locale
thousands separators, but with the `Intl.NumberFormat` defaults it shows at
most three fraction digits and drops trailing fraction zeros rather than
padding converted amounts to two decimal places; in particular the
end-to-end example (input 100, rate 56) stores output amount 5600 and
displays it as "5,600", while a fractional amount such as 5600.25 is
displayed as "5,600.25". -/
theorem c3_amended_format_drops_zeros :
    (handleConvert (inputChanged initState (some 100)) true true
        (FetchResult.payload (some 56))).targetCurrentValue = some 5600 ∧
    formatCurrencyOpt (some (5600 : ℚ)) = "5,600" ∧
    formatCurrency (5600 + 1 / 4 : ℚ) = "5,600.25" := by
  refine ⟨?_, ?_, ?_⟩
  · norm_num [handleConvert, inputChanged, convertStart, convertResolve,
      updateExchangeRate, initState, jsLeZero, jsGtZero, parseInput, jsMul,
      toFixed2Opt, toFixed2, Rat.floor_def]
  · simp only [formatCurrencyOpt]
    unfold formatCurrency
    norm_num [Rat.floor_def]
    decide
  · unfold formatCurrency
    norm_num [Rat.floor_def]
    decide

/-- Claim C4 is false on the code: a successful fetch whose JSON body lacks
the `conversion_rate` field (malformed/unusable data) does NOT reach the
`catch` block — the code stores the missing field (`undefined`) into
`conversionRate` and sets `isFetching = true`, so the previously held rate
is overwritten rather than left untouched.  Concretely, from a session
holding the valid rate 56 with input 100, such a response replaces the rate
with a non-finite value. -/
theorem c4_malformed_counterexample :
    (handleConvert
        { initState with
          inputValue := some 100
          conversionRate := some 56
          isFetching := true } true true
        (FetchResult.payload none)).conversionRate = none ∧
    (handleConvert
        { initState with
          inputValue := some 100
          conversionRate := some 56
          isFetching := true } true true
        (FetchResult.payload none)).conversionRate
      ≠ ({ initState with
          inputValue := some 100
          conversionRate := some 56
          isFetching := true } : AppState).conversionRate := by
  have h : (handleConvert
      { initState with
        inputValue := some 100
        conversionRate := some 56
        isFetching := true } true true
      (FetchResult.payload none)).conversionRate = none := by
    norm_num [handleConvert, convertStart, convertResolve,
      updateExchangeRate, initState, jsLeZero, jsMul, toFixed2Opt]
  refine ⟨h, ?_⟩
  rw [h]
  simp [initState]

/-- Claim C4 (amended): when the remote call itself fails or its body
cannot be parsed as JSON — i.e. the awaited `fetch`/`response.json()`
throws and control reaches `catch` — the previously held rate, the
`isFetching` flag, the amounts and the input are all left untouched and an
error message is surfaced on the display; a well-formed JSON response that
merely lacks `conversion_rate`, however, overwrites the rate and sets the
flag. -/
theorem c4_amended_throw_preserves_state (st : AppState) (oc : Bool)
    (hpos : jsGtZero st.inputValue = true) :
    (handleConvert st true oc FetchResult.threw).conversionRate
        = st.conversionRate ∧
    (handleConvert st true oc FetchResult.threw).isFetching
        = st.isFetching ∧
    (handleConvert st true oc FetchResult.threw).sourceCurrentValue
        = st.sourceCurrentValue ∧
    (handleConvert st true oc FetchResult.threw).targetCurrentValue
        = st.targetCurrentValue ∧
    (handleConvert st true oc FetchResult.threw).inputValue
        = st.inputValue ∧
    ((handleConvert st true oc FetchResult.threw).displayText
        = "No internet connection!" ∨
      (handleConvert st true oc FetchResult.threw).displayText
        = "Error fetching exchange rate!") := by
  have hle := jsLeZero_eq_false_of_jsGtZero _ hpos
  cases oc <;>
    simp [handleConvert, convertStart, convertResolve, hle]

/-- Witness for the amended C4: a thrown fetch from the session holding
rate 56 with input 100 keeps every session field. -/
theorem c4_amended_throw_preserves_state_witness :
    (handleConvert
        { initState with
          inputValue := some 100
          conversionRate := some 56
          isFetching := true } true true FetchResult.threw).conversionRate
        = some 56 ∧
    (handleConvert
        { initState with
          inputValue := some 100
          conversionRate := some 56
          isFetching := true } true true FetchResult.threw).isFetching
        = true ∧
    (handleConvert
        { initState with
          inputValue := some 100
          conversionRate := some 56
          isFetching := true } true true FetchResult.threw).sourceCurrentValue
        = 0 ∧
    (handleConvert
        { initState with
          inputValue := some 100
          conversionRate := some 56
          isFetching := true } true true FetchResult.threw).targetCurrentValue
        = some 0 ∧
    (handleConvert
        { initState with
          inputValue := some 100
          conversionRate := some 56
          isFetching := true } true true FetchResult.threw).inputValue
        = some 100 ∧
    ((handleConvert
        { initState with
          inputValue := some 100
          conversionRate := some 56
          isFetching := true } true true FetchResult.threw).displayText
        = "No internet connection!" ∨
      (handleConvert
        { initState with
          inputValue := some 100
          conversionRate := some 56
          isFetching := true } true true FetchResult.threw).displayText
        = "Error fetching exchange rate!") :=
  c4_amended_throw_preserves_state
    { initState with
      inputValue := some 100
      conversionRate := some 56
      isFetching := true } true (by norm_num [jsGtZero])

/-- Claim C5 is false on the code: the input handler does not reject or
coerce a negative amount.  From a session holding the valid rate 56, typing
-5 recomputes `targetCurrentValue` to -280, a negative output amount. -/
theorem c5_negative_input_counterexample :
    (inputChanged
        { initState with conversionRate := some 56, isFetching := true }
        (some (-5))).targetCurrentValue = some (-280) ∧
    ((-280 : ℚ) < 0) := by
  constructor
  · norm_num [inputChanged, updateExchangeRate, initState, jsGtZero,
      parseInput, jsMul, toFixed2Opt, toFixed2, Rat.floor_def]
  · norm_num

/-- Claim C5 (amended): a negative input amount is NOT rejected or coerced
to 0 — the input handler accepts it unchanged, and whenever a valid rate
`r` is held the recomputed output amount is `round2 (a * r)`, which is
negative whenever `a * r ≤ -0.01`; only `handleConvert` rejects
non-positive amounts (see C7), and that guard does not run on input
events. -/
theorem c5_amended_negative_not_rejected (st : AppState) (a r : ℚ)
    (hv : st.isFetching = true) (hr : st.conversionRate = some r)
    (hneg : a < 0) (hprod : a * r ≤ -(1 / 100)) :
    (inputChanged st (some a)).sourceCurrentValue = a ∧
    (inputChanged st (some a)).targetCurrentValue
        = some (toFixed2 (a * r)) ∧
    toFixed2 (a * r) < 0 := by
  have hgt : jsGtZero (some a) = false := by
    simp only [jsGtZero, decide_eq_false_iff_not, not_lt]
    exact hneg.le
  refine ⟨?_, ?_, ?_⟩
  · simp [inputChanged, hv, hgt, updateExchangeRate, hr, parseInput,
      jsMul, toFixed2Opt]
  · simp [inputChanged, hv, hgt, updateExchangeRate, hr, parseInput,
      jsMul, toFixed2Opt]
  · have h1 : a * r * 100 + 1 / 2 ≤ (-(1 / 2) : ℚ) := by linarith
    have h2 : ⌊a * r * 100 + 1 / 2⌋ ≤ ⌊(-(1 / 2) : ℚ)⌋ :=
      Int.floor_le_floor h1
    have h3 : ⌊(-(1 / 2) : ℚ)⌋ = -1 := by norm_num [Rat.floor_def]
    have h4 : ((⌊a * r * 100 + 1 / 2⌋ : ℤ) : ℚ) ≤ -1 := by
      exact_mod_cast h3 ▸ h2
    unfold toFixed2
    have h5 : ((⌊a * r * 100 + 1 / 2⌋ : ℤ) : ℚ) < 0 :=
      lt_of_le_of_lt h4 (by norm_num)
    exact div_neg_of_neg_of_pos h5 (by norm_num)

/-- Witness for the amended C5: input -5 at rate 56 yields the negative
output amount -280. -/
theorem c5_amended_negative_not_rejected_witness :
    (inputChanged
        { initState with conversionRate := some 56, isFetching := true }
        (some (-5))).sourceCurrentValue = -5 ∧
    (inputChanged
        { initState with conversionRate := some 56, isFetching := true }
        (some (-5))).targetCurrentValue = some (toFixed2 (-5 * 56)) ∧
    toFixed2 (-5 * 56) < 0 :=
  c5_amended_negative_not_rejected
    { initState with conversionRate := some 56, isFetching := true }
    (-5) 56 rfl rfl (by norm_num) (by norm_num)

/-- Claim C6: from every prior session state, a currency-selection change
clears `isFetching` (the rate-validity flag) and resets the input amount to
0 (both the input field and the parsed `sourceCurrentValue`). -/
theorem c6_selectChanged_invalidates (st : AppState) (role : Role)
    (code : String) :
    (selectChanged st role code).isFetching = false ∧
    (selectChanged st role code).inputValue = some 0 ∧
    (selectChanged st role code).sourceCurrentValue = 0 := by
  cases role <;>
    simp [selectChanged, updateExchangeRate, parseInput]

/-- Claim C7: when the input field holds a non-positive amount (a blank
field coerces to 0 in the `value <= 0` check), `handleConvert` alerts and
returns at the validation guard: no fetch is issued and the whole state —
in particular the fetch count — is returned unchanged, whatever the
network condition or would-be response. -/
theorem c7_invalid_amount_no_fetch (st : AppState) (online oc : Bool)
    (res : FetchResult) (h : jsLeZero st.inputValue = true) :
    convertStart st online = (st, StartResult.invalidAmount) ∧
    handleConvert st online oc res = st := by
  constructor
  · simp [convertStart, h]
  · simp [handleConvert, convertStart, h]

/-- Witness for C7 at the initial state, whose input field is blank. -/
theorem c7_invalid_amount_no_fetch_witness :
    convertStart initState true = (initState, StartResult.invalidAmount) ∧
    handleConvert initState true true (FetchResult.payload (some 56))
      = initState :=
  c7_invalid_amount_no_fetch initState true true
    (FetchResult.payload (some 56)) rfl

/-- Claim C8: with a valid rate `R > 0` held and no intervening fetch,
applying the swap handler twice restores the selected source and target
currencies and the rate (exactly, in this rational model) and keeps the
rate valid. -/
theorem c8_double_swap_restores (st : AppState) (R : ℚ)
    (hv : st.isFetching = true) (hr : st.conversionRate = some R)
    (hR : 0 < R) :
    (swap (swap st)).selectSource = st.selectSource ∧
    (swap (swap st)).selectTarget = st.selectTarget ∧
    (swap (swap st)).conversionRate = some R ∧
    (swap (swap st)).isFetching = true := by
  have hR' : R ≠ 0 := hR.ne'
  have hinv : (1 : ℚ) / R ≠ 0 := one_div_ne_zero hR'
  simp [swap, updateExchangeRate, hv, hr, jsInv, hR', hinv,
    one_div_one_div]

/-- Witness for C8: double swap from the USD/PHP session at rate 56. -/
theorem c8_double_swap_restores_witness :
    (swap (swap
        { initState with
          conversionRate := some 56
          isFetching := true })).selectSource = "USD" ∧
    (swap (swap
        { initState with
          conversionRate := some 56
          isFetching := true })).selectTarget = "PHP" ∧
    (swap (swap
        { initState with
          conversionRate := some 56
          isFetching := true })).conversionRate = some 56 ∧
    (swap (swap
        { initState with
          conversionRate := some 56
          isFetching := true })).isFetching = true :=
  c8_double_swap_restores
    { initState with conversionRate := some 56, isFetching := true }
    56 rfl rfl (by norm_num)

/-- Claim C9: when a fetch is issued for the currently selected pair and
the selection then changes before the response arrives, the resolution
handler unconditionally stores the response — it sets
`conversionRate` to the fetched rate and `isFetching = true` while the
selected pair is the NEW one, with no check against the pair the request
was issued for. -/
theorem c9_stale_response_overwrites (st : AppState) (role : Role)
    (code : String) (r : ℚ) (hpos : jsGtZero st.inputValue = true) :
    (convertStart st true).2
        = StartResult.issued (st.selectSource, st.selectTarget) ∧
    (convertResolve (selectChanged (convertStart st true).1 role code) true
        (FetchResult.payload (some r))).isFetching = true ∧
    (convertResolve (selectChanged (convertStart st true).1 role code) true
        (FetchResult.payload (some r))).conversionRate = some r ∧
    (convertResolve (selectChanged (convertStart st true).1 role code) true
        (FetchResult.payload (some r))).selectSource
        = (selectChanged (convertStart st true).1 role code).selectSource ∧
    (convertResolve (selectChanged (convertStart st true).1 role code) true
        (FetchResult.payload (some r))).selectTarget
        = (selectChanged (convertStart st true).1 role code).selectTarget := by
  have hle := jsLeZero_eq_false_of_jsGtZero _ hpos
  refine ⟨?_, ?_⟩
  · simp [convertStart, hle]
  · cases role <;>
      simp [convertResolve, selectChanged, updateExchangeRate]

/-- Witness for C9: a fetch issued for (USD, PHP) with input 100, the
target selection then changed to EUR, and the stale response (rate 56)
still stored for the new pair. -/
theorem c9_stale_response_overwrites_witness :
    (convertStart { initState with inputValue := some 100 } true).2
        = StartResult.issued ("USD", "PHP") ∧
    (convertResolve
        (selectChanged
          (convertStart { initState with inputValue := some 100 } true).1
          Role.target "EUR") true
        (FetchResult.payload (some 56))).isFetching = true ∧
    (convertResolve
        (selectChanged
          (convertStart { initState with inputValue := some 100 } true).1
          Role.target "EUR") true
        (FetchResult.payload (some 56))).conversionRate = some 56 ∧
    (convertResolve
        (selectChanged
          (convertStart { initState with inputValue := some 100 } true).1
          Role.target "EUR") true
        (FetchResult.payload (some 56))).selectSource
        = (selectChanged
          (convertStart { initState with inputValue := some 100 } true).1
          Role.target "EUR").selectSource ∧
    (convertResolve
        (selectChanged
          (convertStart { initState with inputValue := some 100 } true).1
          Role.target "EUR") true
        (FetchResult.payload (some 56))).selectTarget
        = (selectChanged
          (convertStart { initState with inputValue := some 100 } true).1
          Role.target "EUR").selectTarget :=
  c9_stale_response_overwrites { initState with inputValue := some 100 }
    Role.target "EUR" 56 (by norm_num [jsGtZero])

/-- Claim C10: a currency-selection change leaves the stored numeric rate
itself untouched — only the validity flag is cleared and the input amount
reset — so the stale rate value persists in the session. -/
theorem c10_selectChanged_keeps_rate (st : AppState) (role : Role)
    (code : String) :
    (selectChanged st role code).conversionRate = st.conversionRate ∧
    (selectChanged st role code).isFetching = false ∧
    (selectChanged st role code).inputValue = some 0 := by
  cases role <;>
    simp [selectChanged, updateExchangeRate]
